import Mathlib

/-!
Verification development for the repair-ticket lifecycle and LINE
notification dispatch of the ticketing backend.

The definitions below are a shallow embedding of the TypeScript services:
the persistent store becomes explicit record-of-lists state, Prisma calls
become pure list operations, timestamps become natural numbers supplied as
a `now` parameter, and the external LINE transport becomes an oracle
argument (`Except String Unit` for a single call, `Nat → Bool` for the
per-entry retry pass).  JavaScript truthiness of optional numbers and
strings is modelled explicitly (`≠ 0`, `≠ ""`).
-/

namespace TRR

/-- Ticket lifecycle states (Prisma enum RepairTicketStatus as used by the
repairs service). -/
inductive RepairTicketStatus
  | PENDING
  | IN_PROGRESS
  | WAITING_PARTS
  | COMPLETED
  | CANCELLED
deriving DecidableEq

/-- Urgency levels (Prisma enum UrgencyLevel). -/
inductive UrgencyLevel
  | NORMAL
  | URGENT
  | CRITICAL
deriving DecidableEq

/-- Staff roles referenced by the repairs controller and the IT broadcast
(Role.ADMIN, Role.IT, plain users). -/
inductive Role
  | ADMIN
  | IT
  | USER
deriving DecidableEq

/-- String rendering of a status, used when the update log comment is
defaulted by string interpolation. -/
def RepairTicketStatus.toText : RepairTicketStatus → String
  | .PENDING => "PENDING"
  | .IN_PROGRESS => "IN_PROGRESS"
  | .WAITING_PARTS => "WAITING_PARTS"
  | .COMPLETED => "COMPLETED"
  | .CANCELLED => "CANCELLED"

/-- A user row (fields the modelled code reads). -/
structure User where
  id : Nat
  name : String
  role : Role
deriving DecidableEq

/-- A repair ticket row (fields the modelled code reads or writes). -/
structure RepairTicket where
  id : Nat
  ticketCode : String
  status : RepairTicketStatus
  urgency : UrgencyLevel
  assignedTo : Option Nat
  userId : Nat
  notes : Option String
  scheduledAt : Option Nat
  completedAt : Option Nat
  cancelledAt : Option Nat
  createdAt : Nat
deriving DecidableEq

/-- An append-only status-log row (repairTicketLog). -/
structure RepairTicketLog where
  repairTicketId : Nat
  status : RepairTicketStatus
  comment : Option String
  updatedBy : Nat
deriving DecidableEq

/-- An attachment row (repairAttachment). -/
structure RepairAttachment where
  repairTicketId : Nat
  filename : String
  fileUrl : String
deriving DecidableEq

/-- The persistent store the repairs service reads and writes. -/
structure Store where
  tickets : List RepairTicket
  users : List User
  logs : List RepairTicketLog
  attachments : List RepairAttachment
deriving DecidableEq

/-- UpdateRepairTicketDto: the partial update body (fields the update
method manipulates; absent fields are `none`). -/
structure UpdateRepairTicketDto where
  status : Option RepairTicketStatus
  notes : Option String
  assignedTo : Option Nat
  scheduledAt : Option Nat
deriving DecidableEq

/-- prisma.repairTicket.findUnique by id. -/
def findTicket (s : Store) (id : Nat) : Option RepairTicket :=
  s.tickets.find? (fun t => t.id == id)

/-- prisma.user.findUnique by id. -/
def findUser (s : Store) (uid : Nat) : Option User :=
  s.users.find? (fun u => u.id == uid)

/-- Three-way action tag passed to notifyTechnicianTaskAssignment. -/
inductive AssignmentAction
  | ASSIGNED
  | TRANSFERRED
  | CLAIMED
deriving DecidableEq

/-- The assignment notification the update method requests from the LINE
notification service. -/
structure AssignmentNotice where
  technicianId : Nat
  ticketCode : String
  action : AssignmentAction
deriving DecidableEq

/-- Result of one update call: new store state, the updated ticket, the
log rows appended by this call, and the requested assignment notice. -/
structure UpdateOutcome where
  store : Store
  ticket : RepairTicket
  newLogs : List RepairTicketLog
  notice : Option AssignmentNotice
deriving DecidableEq

/-- The single log row the update method writes: status defaults to the
current one when no status is supplied; the comment defaults to a transfer
description when the assignee changes (with the caller notes appended),
else to the caller notes, else to a status-change description. -/
def mkUpdateLog (s : Store) (id : Nat) (dto : UpdateRepairTicketDto)
    (updatedById : Nat) (ticket : RepairTicket) : RepairTicketLog :=
  let changesAssignee :=
    match dto.assignedTo with
    | some a => decide (ticket.assignedTo ≠ some a)
    | none => false
  let comment :=
    if changesAssignee then
      let oldName := ((ticket.assignedTo.bind (findUser s)).map User.name).getD
        "ไม่มีผู้รับผิดชอบ"
      let newName := ((dto.assignedTo.bind (findUser s)).map User.name).getD
        "ไม่ทราบชื่อ"
      some ("โอนงานจาก " ++ oldName ++ " ไปยัง " ++ newName ++
        (match dto.notes with
         | some c => " | " ++ c
         | none => ""))
    else dto.notes
  { repairTicketId := id
    status := dto.status.getD ticket.status
    comment := some (comment.getD
      ("เปลี่ยนสถานะเป็น " ++ (dto.status.getD ticket.status).toText))
    updatedBy := updatedById }

/-- The log rows appended by one update call: one row when a status or an
assignedTo field is supplied, none otherwise. -/
def updateLogEntries (s : Store) (id : Nat) (dto : UpdateRepairTicketDto)
    (updatedById : Nat) (ticket : RepairTicket) : List RepairTicketLog :=
  if dto.status.isSome || dto.assignedTo.isSome then
    [mkUpdateLog s id dto updatedById ticket]
  else []

/-- The partial update applied to the ticket row: supplied fields
overwrite, absent fields stay; completedAt is stamped exactly when the
supplied status is COMPLETED. -/
def applyUpdate (now : Nat) (dto : UpdateRepairTicketDto)
    (ticket : RepairTicket) : RepairTicket :=
  { ticket with
    status := dto.status.getD ticket.status
    notes := match dto.notes with
      | some n => some n
      | none => ticket.notes
    assignedTo := match dto.assignedTo with
      | some a => some a
      | none => ticket.assignedTo
    completedAt :=
      if dto.status = some RepairTicketStatus.COMPLETED then some now
      else ticket.completedAt
    scheduledAt := match dto.scheduledAt with
      | some d => some d
      | none => ticket.scheduledAt }

/-- The store state after one update call: the ticket row replaced and the
appended log rows. -/
def updatedStore (s : Store) (now : Nat) (id : Nat)
    (dto : UpdateRepairTicketDto) (updatedById : Nat)
    (ticket : RepairTicket) : Store :=
  { s with
    tickets := s.tickets.map
      (fun t => if t.id == id then applyUpdate now dto ticket else t)
    logs := s.logs ++ updateLogEntries s id dto updatedById ticket }

/-- The assignment notice the update method requests: present exactly when
assignedTo is truthy and the updated assignee relation resolves, always
with the constant action ASSIGNED. -/
def updateNotice (s : Store) (now : Nat) (id : Nat)
    (dto : UpdateRepairTicketDto) (updatedById : Nat)
    (ticket : RepairTicket) : Option AssignmentNotice :=
  match dto.assignedTo with
  | some a =>
    if a ≠ 0 ∧ (findUser (updatedStore s now id dto updatedById ticket) a).isSome then
      some { technicianId := a
             ticketCode := (applyUpdate now dto ticket).ticketCode
             action := AssignmentAction.ASSIGNED }
    else none
  | none => none

/-- The full outcome of a successful update call. -/
def updateOutcomeOf (s : Store) (now : Nat) (id : Nat)
    (dto : UpdateRepairTicketDto) (updatedById : Nat)
    (ticket : RepairTicket) : UpdateOutcome :=
  { store := updatedStore s now id dto updatedById ticket
    ticket := applyUpdate now dto ticket
    newLogs := updateLogEntries s id dto updatedById ticket
    notice := updateNotice s now id dto updatedById ticket }

/-- RepairsService.update (canonical revision, src/repairs/repairs.service.ts).
Looks up the ticket (NotFound if absent); when a status or an assignedTo
field is supplied it appends exactly one log row, defaulting the comment to
a transfer description when the assignee changes, else to a status-change
description; applies the partial update, stamping completedAt only when the
new status is COMPLETED; finally, when assignedTo is truthy and the updated
assignee relation resolves, requests an assignment notice with the constant
action ASSIGNED. -/
def update (s : Store) (now : Nat) (id : Nat) (dto : UpdateRepairTicketDto)
    (updatedById : Nat) : Except String UpdateOutcome :=
  match findTicket s id with
  | none => .error "Repair ticket not found"
  | some ticket => .ok (updateOutcomeOf s now id dto updatedById ticket)

/-- RepairsService.remove (canonical revision): soft delete.  Updates the
row to status CANCELLED with cancelledAt stamped; prisma.update raises
when the record does not exist. -/
def remove (s : Store) (now : Nat) (id : Nat) :
    Except String (Store × RepairTicket) :=
  match findTicket s id with
  | none => .error "Record to update not found"
  | some ticket =>
    let updatedTicket :=
      { ticket with
        status := RepairTicketStatus.CANCELLED
        cancelledAt := some now }
    .ok ({ s with
           tickets := s.tickets.map (fun t => if t.id == id then updatedTicket else t) },
         updatedTicket)

/-- Result shape of RepairsService.getStatistics. -/
structure Statistics where
  total : Nat
  pending : Nat
  inProgress : Nat
  waitingParts : Nat
  completed : Nat
  cancelled : Nat
deriving DecidableEq

/-- prisma.repairTicket.count with a status filter. -/
def countByStatus (s : Store) (st : RepairTicketStatus) : Nat :=
  (s.tickets.filter (fun t => decide (t.status = st))).length

/-- RepairsService.getStatistics: a total count plus one count per status. -/
def getStatistics (s : Store) : Statistics :=
  { total := s.tickets.length
    pending := countByStatus s .PENDING
    inProgress := countByStatus s .IN_PROGRESS
    waitingParts := countByStatus s .WAITING_PARTS
    completed := countByStatus s .COMPLETED
    cancelled := countByStatus s .CANCELLED }

/-- Parameter object of the list-endpoint service method findAll (the
revision taking an isAdmin flag). -/
structure FindAllParams where
  userId : Option Nat
  isAdmin : Bool
  status : Option RepairTicketStatus
  urgency : Option UrgencyLevel
  assignedTo : Option Nat
  limit : Option Nat

/-- The where-clause findAll builds: each filter is added only when the
corresponding parameter is truthy, and the ownership filter only for
non-admin callers. -/
def findAllWhere (p : FindAllParams) (t : RepairTicket) : Bool :=
  (match p.userId with
   | some uid => if !p.isAdmin && uid != 0 then t.userId == uid else true
   | none => true)
  && (match p.status with
      | some st => decide (t.status = st)
      | none => true)
  && (match p.urgency with
      | some u => decide (t.urgency = u)
      | none => true)
  && (match p.assignedTo with
      | some a => if a != 0 then decide (t.assignedTo = some a) else true
      | none => true)

/-- RepairsService.findAll: filtered rows, newest first, optionally
limited. -/
def findAllService (tickets : List RepairTicket) (p : FindAllParams) :
    List RepairTicket :=
  let rows := (tickets.filter (findAllWhere p)).mergeSort
    (fun a b => decide (b.createdAt ≤ a.createdAt))
  match p.limit with
  | some k => rows.take k
  | none => rows

/-- The authenticated caller as the JWT guard presents it to the
controller. -/
structure AuthUser where
  id : Nat
  role : Role
deriving DecidableEq

/-- RepairsController.findAll: always passes the caller id and an isAdmin
flag that is true exactly for ADMIN and IT roles. -/
def controllerFindAll (tickets : List RepairTicket) (caller : AuthUser)
    (status : Option RepairTicketStatus) (urgency : Option UrgencyLevel)
    (assignedTo : Option Nat) (limit : Option Nat) : List RepairTicket :=
  findAllService tickets
    { userId := some caller.id
      isAdmin := decide (caller.role = Role.ADMIN) || decide (caller.role = Role.IT)
      status := status
      urgency := urgency
      assignedTo := assignedTo
      limit := limit }

/-- Verification state of a LINE account link (the code only tests for
VERIFIED). -/
inductive LinkStatus
  | PENDING
  | VERIFIED
deriving DecidableEq

/-- A lineOALink row: at most one per user, holding the external LINE user
id and the verification status. -/
structure LineOALink where
  userId : Nat
  lineUserId : Option String
  status : LinkStatus
deriving DecidableEq

/-- Delivery status of a notification log row (Prisma enum
LineNotificationStatus). -/
inductive LineNotificationStatus
  | SENT
  | FAILED
deriving DecidableEq

/-- A lineNotification log row. -/
structure LineNotification where
  id : Nat
  lineUserId : String
  type : String
  title : String
  message : String
  status : LineNotificationStatus
  errorMessage : Option String
  retryCount : Nat
  createdAt : Nat
deriving DecidableEq

/-- A LINE message document: either a plain text message or a flex card,
identified by its alt text (the card layout is presentation data the
claims do not inspect). -/
inductive LineMessage
  | text (body : String)
  | flex (altText : String)
deriving DecidableEq

/-- Payload of the generic sendNotification entry point. -/
structure LineNotificationPayload where
  type : String
  title : String
  message : String
  actionUrl : Option String
  richMessage : Option LineMessage
deriving DecidableEq

/-- One call issued to the external LINE client (sendMessage has one
recipient, sendMulticast several). -/
structure ExternalCall where
  recipients : List String
  message : LineMessage
deriving DecidableEq

/-- Column values of a freshly written lineNotification row (id and
createdAt are assigned by the database). -/
structure NotificationLogData where
  lineUserId : String
  type : String
  title : String
  message : String
  status : LineNotificationStatus
  errorMessage : Option String
deriving DecidableEq

/-- Result object of sendNotification. -/
structure SendResult where
  success : Bool
  reason : Option String
deriving DecidableEq

/-- Observable effects of one sendNotification call: its result, the
external calls issued, and the log rows written. -/
structure SendEffects where
  result : SendResult
  calls : List ExternalCall
  newLogs : List NotificationLogData
deriving DecidableEq

/-- JavaScript truthiness of an optional string (null, undefined and the
empty string are falsy). -/
def isTruthyStr : Option String → Bool
  | some s => s != ""
  | none => false

/-- getVerifiedLineLink: the unique link of the user, kept only when its
status is VERIFIED and it carries a truthy lineUserId. -/
def getVerifiedLineLink (links : List LineOALink) (userId : Nat) :
    Option LineOALink :=
  match links.find? (fun l => l.userId == userId) with
  | some l =>
    if decide (l.status = LinkStatus.VERIFIED) && isTruthyStr l.lineUserId then some l
    else none
  | none => none

/-- createDefaultTextMessage: generic text rendering with title, body and
an optional action link. -/
def createDefaultTextMessage (p : LineNotificationPayload) : LineMessage :=
  LineMessage.text ("📬 " ++ p.title ++ "\n\n" ++ p.message ++
    (match p.actionUrl with
     | some u => "\n\n👉 " ++ u
     | none => ""))

/-- saveNotificationLog: log row built from a payload. -/
def mkLogData (lineUserId : String) (p : LineNotificationPayload)
    (st : LineNotificationStatus) (err : Option String) : NotificationLogData :=
  { lineUserId := lineUserId
    type := p.type
    title := p.title
    message := p.message
    status := st
    errorMessage := err }

/-- LineOANotificationService.sendNotification.  Without a verified link it
short-circuits with a not-linked reason, issuing no external call and
writing no log row.  With a verified link it sends the rich message or the
default text rendering; the external transport outcome is the
`sendOutcome` oracle: on success a SENT row is logged, on a thrown error
the catch block logs a FAILED row (when the re-fetched link has a truthy
lineUserId) and returns success false. -/
def sendNotification (links : List LineOALink) (sendOutcome : Except String Unit)
    (userId : Nat) (payload : LineNotificationPayload) : SendEffects :=
  match getVerifiedLineLink links userId with
  | none =>
    { result := { success := false, reason := some "User not linked to LINE" }
      calls := []
      newLogs := [] }
  | some l =>
    let lid := l.lineUserId.getD ""
    let message := payload.richMessage.getD (createDefaultTextMessage payload)
    match sendOutcome with
    | .ok _ =>
      { result := { success := true, reason := none }
        calls := [{ recipients := [lid], message := message }]
        newLogs := [mkLogData lid payload LineNotificationStatus.SENT none] }
    | .error e =>
      let failLogs :=
        match links.find? (fun k => k.userId == userId) with
        | some k =>
          if isTruthyStr k.lineUserId then
            [mkLogData (k.lineUserId.getD "") payload LineNotificationStatus.FAILED (some e)]
          else []
        | none => []
      { result := { success := false, reason := none }
        calls := [{ recipients := [lid], message := message }]
        newLogs := failLogs }

/-- Payload of the new-ticket broadcast to the IT team. -/
structure RepairTicketNotificationPayload where
  ticketCode : String
  reporterName : String
  department : String
  problemTitle : String
  location : String
deriving DecidableEq

/-- Result object of notifyRepairTicketToITTeam. -/
structure BroadcastResult where
  success : Bool
  reason : Option String
  count : Option Nat
deriving DecidableEq

/-- Observable effects of one broadcast call. -/
structure BroadcastEffects where
  result : BroadcastResult
  calls : List ExternalCall
  newLogs : List NotificationLogData
deriving DecidableEq

/-- The unique lineOALink row of a user, if any. -/
def findLink (links : List LineOALink) (uid : Nat) : Option LineOALink :=
  links.find? (fun l => l.userId == uid)

/-- Recipient resolution of the IT broadcast: users with role IT whose
link relation has status VERIFIED, mapped to their lineUserId and filtered
for truthiness. -/
def itEligibleLineUserIds (users : List User) (links : List LineOALink) :
    List String :=
  (users.filter (fun u =>
      decide (u.role = Role.IT) &&
      ((findLink links u.id).any (fun l => decide (l.status = LinkStatus.VERIFIED))))).filterMap
    (fun u => (findLink links u.id).bind
      (fun l => if isTruthyStr l.lineUserId then some (l.lineUserId.getD "") else none))

/-- LineOANotificationService.notifyRepairTicketToITTeam.  Resolves the
eligible recipients; with none it returns success false with the
no-recipients reason and issues no external call; otherwise it sends one
multicast flex message and logs one SENT row per recipient.  A thrown
transport error is caught and yields success false. -/
def notifyRepairTicketToITTeam (users : List User) (links : List LineOALink)
    (sendOutcome : Except String Unit) (payload : RepairTicketNotificationPayload) :
    BroadcastEffects :=
  let ids := itEligibleLineUserIds users links
  if ids.isEmpty then
    { result := { success := false, reason := some "No IT users linked to LINE", count := none }
      calls := []
      newLogs := [] }
  else
    let msg := LineMessage.flex ("📢 งานซ่อมใหม่ " ++ payload.ticketCode)
    match sendOutcome with
    | .ok _ =>
      { result := { success := true, reason := none, count := some ids.length }
        calls := [{ recipients := ids, message := msg }]
        newLogs := ids.map (fun lid =>
          { lineUserId := lid
            type := "REPAIR_TICKET_CREATED"
            title := "งานใหม่ " ++ payload.ticketCode
            message := payload.problemTitle
            status := LineNotificationStatus.SENT
            errorMessage := none }) }
    | .error _ =>
      { result := { success := false, reason := none, count := none }
        calls := [{ recipients := ids, message := msg }]
        newLogs := [] }

/-- Selection of the retry pass: FAILED rows with retryCount below three,
ordered by createdAt ascending, at most ten. -/
def retryCandidates (db : List LineNotification) : List LineNotification :=
  ((db.filter (fun n =>
      decide (n.status = LineNotificationStatus.FAILED) && decide (n.retryCount < 3))).mergeSort
    (fun a b => decide (a.createdAt ≤ b.createdAt))).take 10

/-- One retry attempt on a selected row: re-send as a plain text message
(outcome given by the sendOk oracle keyed on the row id); on success the
row becomes SENT with retryCount incremented, on a repeated failure only
retryCount is incremented and the error text overwritten. -/
def retryOne (sendOk : Nat → Bool) (errText : Nat → String)
    (n : LineNotification) : LineNotification :=
  if sendOk n.id then
    { n with status := LineNotificationStatus.SENT, retryCount := n.retryCount + 1 }
  else
    { n with retryCount := n.retryCount + 1, errorMessage := some (errText n.id) }

/-- Result of one retry pass: the new table contents and how many rows
were processed. -/
structure RetryOutcome where
  db : List LineNotification
  processed : Nat
deriving DecidableEq

/-- LineOANotificationService.retryFailedNotifications: applies retryOne
to every selected row (updates are keyed by row id), leaving every other
row untouched. -/
def retryFailedNotifications (db : List LineNotification) (sendOk : Nat → Bool)
    (errText : Nat → String) : RetryOutcome :=
  let selected := retryCandidates db
  { db := db.map (fun n =>
      if n.id ∈ selected.map LineNotification.id then retryOne sendOk errText n else n)
    processed := selected.length }

/-! Concrete fixtures used by witness and counterexample theorems. -/

/-- Fixture: an unassigned PENDING ticket. -/
def exTicket1 : RepairTicket :=
  { id := 1
    ticketCode := "REP-20240101-00001"
    status := .PENDING
    urgency := .NORMAL
    assignedTo := none
    userId := 11
    notes := none
    scheduledAt := none
    completedAt := none
    cancelledAt := none
    createdAt := 100 }

/-- Fixture store holding the PENDING ticket and one IT user. -/
def exStore1 : Store :=
  { tickets := [exTicket1]
    users := [{ id := 42, name := "ช่างหนึ่ง", role := .IT }]
    logs := []
    attachments := [] }

/-- Fixture update body: move to IN_PROGRESS. -/
def exDto1 : UpdateRepairTicketDto :=
  { status := some .IN_PROGRESS, notes := none, assignedTo := none, scheduledAt := none }

/-- Fixture update body: complete the ticket. -/
def exDto3 : UpdateRepairTicketDto :=
  { status := some .COMPLETED, notes := none, assignedTo := none, scheduledAt := none }

/-- Fixture: a ticket already assigned to technician 42. -/
def cexTicket2 : RepairTicket :=
  { exTicket1 with id := 2, ticketCode := "REP-20240101-00002", assignedTo := some 42 }

/-- Fixture store for the transfer scenario: previous assignee 42 and the
target technician 7 both exist. -/
def cexStore2 : Store :=
  { tickets := [cexTicket2]
    users := [{ id := 42, name := "ช่างหนึ่ง", role := .IT },
              { id := 7, name := "ช่างสอง", role := .IT }]
    logs := []
    attachments := [] }

/-- Fixture update body: transfer the ticket to technician 7. -/
def cexDto2 : UpdateRepairTicketDto :=
  { status := none, notes := none, assignedTo := some 7, scheduledAt := none }

/-- Fixture update body: re-submit the current status PENDING unchanged. -/
def cexDto8 : UpdateRepairTicketDto :=
  { status := some .PENDING, notes := none, assignedTo := none, scheduledAt := none }

/-- Fixture notification table for the retry pass: four FAILED rows with
retry counts zero to three. -/
def exRetryDb : List LineNotification :=
  [ { id := 1, lineUserId := "U1", type := "T", title := "t1", message := "m1",
      status := .FAILED, errorMessage := some "e1", retryCount := 0, createdAt := 10 },
    { id := 2, lineUserId := "U2", type := "T", title := "t2", message := "m2",
      status := .FAILED, errorMessage := some "e2", retryCount := 1, createdAt := 20 },
    { id := 3, lineUserId := "U3", type := "T", title := "t3", message := "m3",
      status := .FAILED, errorMessage := some "e3", retryCount := 2, createdAt := 30 },
    { id := 4, lineUserId := "U4", type := "T", title := "t4", message := "m4",
      status := .FAILED, errorMessage := some "e4", retryCount := 3, createdAt := 40 } ]

/-- Fixture links: user 5 has a link that was never verified. -/
def exLinks6 : List LineOALink :=
  [{ userId := 5, lineUserId := some "U5", status := .PENDING }]

/-- Fixture payload for the generic notification. -/
def exPayload6 : LineNotificationPayload :=
  { type := "GENERIC", title := "หัวข้อ", message := "ข้อความ",
    actionUrl := none, richMessage := none }

/-- Fixture users for the broadcast: one IT user without a verified link
and one verified non-IT user. -/
def exUsers7 : List User :=
  [{ id := 1, name := "เอ", role := .IT }, { id := 2, name := "บี", role := .USER }]

/-- Fixture links matching exUsers7. -/
def exLinks7 : List LineOALink :=
  [{ userId := 1, lineUserId := some "U1", status := .PENDING },
   { userId := 2, lineUserId := some "U2", status := .VERIFIED }]

/-- Fixture payload for the IT broadcast. -/
def exPayload7 : RepairTicketNotificationPayload :=
  { ticketCode := "REP-20240101-00009", reporterName := "ผู้แจ้ง",
    department := "ฝ่ายผลิต", problemTitle := "ปริ้นเตอร์เสีย", location := "3F" }

/-- Fixture ticket list for the ownership-scope claim: tickets of two
different owners. -/
def exTickets9 : List RepairTicket :=
  [ exTicket1,
    { exTicket1 with id := 3, ticketCode := "REP-20240101-00003", userId := 22, createdAt := 300 } ]

/-- Fixture caller: an ordinary (non ADMIN, non IT) user. -/
def exCaller9 : AuthUser := { id := 11, role := .USER }

/-- Full specification of one retry pass, as a proposition over the table
contents and the transport oracle: the selection contains only FAILED rows
with retryCount below three, is bounded by ten and ordered oldest first;
every selected row is re-attempted with the stated success and failure
updates; rows at the retry cap are never selected and survive unchanged. -/
def RetryPassSpec (db : List LineNotification) (sendOk : Nat → Bool)
    (errText : Nat → String) : Prop :=
  (∀ n ∈ retryCandidates db,
      n.status = LineNotificationStatus.FAILED ∧ n.retryCount < 3) ∧
  (retryCandidates db).length ≤ 10 ∧
  (retryCandidates db).Pairwise (fun a b => a.createdAt ≤ b.createdAt) ∧
  (∀ n ∈ retryCandidates db,
      retryOne sendOk errText n ∈ (retryFailedNotifications db sendOk errText).db ∧
      (sendOk n.id = true →
        (retryOne sendOk errText n).status = LineNotificationStatus.SENT ∧
        (retryOne sendOk errText n).retryCount = n.retryCount + 1) ∧
      (sendOk n.id = false →
        (retryOne sendOk errText n).status = n.status ∧
        (retryOne sendOk errText n).retryCount = n.retryCount + 1 ∧
        (retryOne sendOk errText n).errorMessage = some (errText n.id))) ∧
  (∀ n ∈ db, n.retryCount = 3 →
      n ∉ retryCandidates db ∧ n ∈ (retryFailedNotifications db sendOk errText).db)

/-! Theorems. -/

/-- Helper: the length of a ticket list is the sum of the per-status
filter lengths over the five lifecycle states. -/
theorem ticket_count_partition (l : List RepairTicket) :
    l.length =
      (l.filter (fun t => decide (t.status = RepairTicketStatus.PENDING))).length +
      (l.filter (fun t => decide (t.status = RepairTicketStatus.IN_PROGRESS))).length +
      (l.filter (fun t => decide (t.status = RepairTicketStatus.WAITING_PARTS))).length +
      (l.filter (fun t => decide (t.status = RepairTicketStatus.COMPLETED))).length +
      (l.filter (fun t => decide (t.status = RepairTicketStatus.CANCELLED))).length := by
  induction l with
  | nil => rfl
  | cons h tl ih =>
    cases hst : h.status <;> simp [List.filter_cons, hst] <;> omega

/-- C10: for every store state, the statistics result satisfies
total = pending + inProgress + waitingParts + completed + cancelled, since
every ticket status is one of the five lifecycle states. -/
theorem getStatistics_total_eq_sum (s : Store) :
    (getStatistics s).total =
      (getStatistics s).pending + (getStatistics s).inProgress +
      (getStatistics s).waitingParts + (getStatistics s).completed +
      (getStatistics s).cancelled := by
  simpa [getStatistics, countByStatus] using ticket_count_partition s.tickets

/-- C4: remove on an existing ticket is a soft delete: the row survives
with status CANCELLED and cancelledAt stamped, the store keeps the same
number of ticket rows, all other tickets survive unchanged, and the log
and attachment collections are untouched. -/
theorem remove_soft_deletes (s : Store) (now id : Nat) (t : RepairTicket)
    (hfind : findTicket s id = some t) :
    ∃ s' t', remove s now id = .ok (s', t') ∧
      t'.status = RepairTicketStatus.CANCELLED ∧
      t'.cancelledAt = some now ∧
      t' ∈ s'.tickets ∧
      s'.tickets.length = s.tickets.length ∧
      s'.logs = s.logs ∧
      s'.attachments = s.attachments ∧
      ∀ u ∈ s.tickets, u.id ≠ id → u ∈ s'.tickets := by
  have hfind' : s.tickets.find? (fun u => u.id == id) = some t := hfind
  have hmem : t ∈ s.tickets := List.mem_of_find?_eq_some hfind'
  have hid : t.id = id := by simpa using List.find?_some hfind'
  unfold remove
  rw [hfind]
  refine ⟨_, _, rfl, rfl, rfl, ?_, by simp, rfl, rfl, ?_⟩
  · have h := List.mem_map_of_mem
      (fun u => if u.id == id then
        { t with status := RepairTicketStatus.CANCELLED, cancelledAt := some now }
        else u) hmem
    simpa [hid] using h
  · intro u hu hne
    have h := List.mem_map_of_mem
      (fun v => if v.id == id then
        { t with status := RepairTicketStatus.CANCELLED, cancelledAt := some now }
        else v) hu
    simpa [hne] using h

/-- C4 witness: removing the fixture ticket cancels it in place. -/
theorem remove_soft_deletes_witness :
    findTicket exStore1 1 = some exTicket1 ∧
    (∃ s' t', remove exStore1 55 1 = .ok (s', t') ∧
      t'.status = RepairTicketStatus.CANCELLED ∧
      t'.cancelledAt = some 55 ∧
      t' ∈ s'.tickets ∧
      s'.tickets.length = exStore1.tickets.length ∧
      s'.logs = exStore1.logs ∧
      s'.attachments = exStore1.attachments ∧
      ∀ u ∈ exStore1.tickets, u.id ≠ 1 → u ∈ s'.tickets) :=
  ⟨rfl, remove_soft_deletes exStore1 55 1 exTicket1 rfl⟩

/-- C3: when the supplied status is COMPLETED the updated ticket gets a
non-null completedAt stamped with the current time; for any other supplied
status (or none) completedAt is left unchanged. -/
theorem update_completedAt_spec (s : Store) (now id : Nat)
    (dto : UpdateRepairTicketDto) (actor : Nat) (t : RepairTicket)
    (hfind : findTicket s id = some t) :
    ∃ r, update s now id dto actor = .ok r ∧
      (dto.status = some RepairTicketStatus.COMPLETED →
        r.ticket.completedAt = some now) ∧
      (dto.status ≠ some RepairTicketStatus.COMPLETED →
        r.ticket.completedAt = t.completedAt) := by
  unfold update
  rw [hfind]
  refine ⟨_, rfl, ?_, ?_⟩
  · intro hc
    simp [updateOutcomeOf, applyUpdate, hc]
  · intro hc
    simp [updateOutcomeOf, applyUpdate, hc]

/-- C3 witness: completing the fixture ticket stamps completedAt with the
supplied clock value. -/
theorem update_completedAt_spec_witness :
    findTicket exStore1 1 = some exTicket1 ∧
    (∃ r, update exStore1 77 1 exDto3 9 = .ok r ∧
      (exDto3.status = some RepairTicketStatus.COMPLETED →
        r.ticket.completedAt = some 77) ∧
      (exDto3.status ≠ some RepairTicketStatus.COMPLETED →
        r.ticket.completedAt = exTicket1.completedAt)) :=
  ⟨rfl, update_completedAt_spec exStore1 77 1 exDto3 9 exTicket1 rfl⟩

/-- C1: an update supplying a status different from the current one
appends exactly one status-log entry, whose status field is the new
status; the store log grows by exactly this entry. -/
theorem update_status_change_appends_one_log (s : Store) (now id : Nat)
    (dto : UpdateRepairTicketDto) (actor : Nat) (t : RepairTicket)
    (newSt : RepairTicketStatus)
    (hfind : findTicket s id = some t)
    (hs : dto.status = some newSt)
    (_hne : newSt ≠ t.status) :
    ∃ r, update s now id dto actor = .ok r ∧
      ∃ e, r.newLogs = [e] ∧ e.status = newSt ∧ r.store.logs = s.logs ++ [e] := by
  unfold update
  rw [hfind]
  refine ⟨_, rfl, mkUpdateLog s id dto actor t, ?_, ?_, ?_⟩
  · simp [updateOutcomeOf, updateLogEntries, hs]
  · simp [mkUpdateLog, hs]
  · simp [updateOutcomeOf, updatedStore, updateLogEntries, hs]

/-- C1 witness: moving the fixture ticket from PENDING to IN_PROGRESS
appends one log entry carrying IN_PROGRESS. -/
theorem update_status_change_appends_one_log_witness :
    findTicket exStore1 1 = some exTicket1 ∧
    exDto1.status = some RepairTicketStatus.IN_PROGRESS ∧
    RepairTicketStatus.IN_PROGRESS ≠ exTicket1.status ∧
    (∃ r, update exStore1 5 1 exDto1 9 = .ok r ∧
      ∃ e, r.newLogs = [e] ∧ e.status = RepairTicketStatus.IN_PROGRESS ∧
        r.store.logs = exStore1.logs ++ [e]) :=
  ⟨rfl, rfl, by decide,
   update_status_change_appends_one_log exStore1 5 1 exDto1 9 exTicket1
     RepairTicketStatus.IN_PROGRESS rfl rfl (by decide)⟩

/-- C8 counterexample: an update whose supplied status equals the current
status, with the assignee field absent, still appends one status-log
entry, so the claimed absence of a new log row fails on this input. -/
theorem update_noop_status_still_logs_cex :
    cexDto8.status = some exTicket1.status ∧
    cexDto8.assignedTo = none ∧
    (update exStore1 50 1 cexDto8 9).map (fun r => r.newLogs.length) =
      Except.ok 1 :=
  ⟨rfl, rfl, rfl⟩

/-- C8 amended: an update supplying the current status again, with the
assignee unchanged (field absent), succeeds and appends exactly one
status-log entry recording the current status — the service logs whenever
a status field is supplied, changed or not. -/
theorem update_noop_status_appends_one_log (s : Store) (now id : Nat)
    (dto : UpdateRepairTicketDto) (actor : Nat) (t : RepairTicket)
    (hfind : findTicket s id = some t)
    (hs : dto.status = some t.status)
    (_ha : dto.assignedTo = none) :
    ∃ r, update s now id dto actor = .ok r ∧
      ∃ e, r.newLogs = [e] ∧ e.status = t.status := by
  unfold update
  rw [hfind]
  refine ⟨_, rfl, mkUpdateLog s id dto actor t, ?_, ?_⟩
  · simp [updateOutcomeOf, updateLogEntries, hs]
  · simp [mkUpdateLog, hs]

/-- C8 amended witness: re-submitting PENDING on the PENDING fixture
ticket appends one log entry recording PENDING. -/
theorem update_noop_status_appends_one_log_witness :
    findTicket exStore1 1 = some exTicket1 ∧
    cexDto8.status = some exTicket1.status ∧
    cexDto8.assignedTo = none ∧
    (∃ r, update exStore1 50 1 cexDto8 9 = .ok r ∧
      ∃ e, r.newLogs = [e] ∧ e.status = exTicket1.status) :=
  ⟨rfl, rfl, rfl,
   update_noop_status_appends_one_log exStore1 50 1 cexDto8 9 exTicket1 rfl rfl rfl⟩

/-- C2 counterexample: transferring the fixture ticket from technician 42
to technician 7 (actor 5) requests a notification whose action is
ASSIGNED, not the TRANSFERRED the claim requires for a changed non-null
previous assignee. -/
theorem update_transfer_gets_assigned_action_cex :
    cexTicket2.assignedTo = some 42 ∧
    cexDto2.assignedTo = some 7 ∧
    (update cexStore2 50 2 cexDto2 5).map UpdateOutcome.notice =
      Except.ok (some { technicianId := 7
                        ticketCode := cexTicket2.ticketCode
                        action := AssignmentAction.ASSIGNED }) ∧
    AssignmentAction.ASSIGNED ≠ AssignmentAction.TRANSFERRED :=
  ⟨rfl, rfl, rfl, by decide⟩

/-- C2 amended: every assignment notification the update method requests
carries the constant action ASSIGNED, regardless of previous assignee,
new assignee, or actor. -/
theorem update_notice_action_always_assigned (s : Store) (now id : Nat)
    (dto : UpdateRepairTicketDto) (actor : Nat) (r : UpdateOutcome)
    (n : AssignmentNotice)
    (h : update s now id dto actor = .ok r)
    (hn : r.notice = some n) :
    n.action = AssignmentAction.ASSIGNED := by
  unfold update at h
  cases hfind : findTicket s id with
  | none =>
    rw [hfind] at h
    exact absurd h (by simp)
  | some t =>
    rw [hfind] at h
    have hr : updateOutcomeOf s now id dto actor t = r :=
      (Except.ok.injEq _ _).mp h
    subst hr
    have hn' : updateNotice s now id dto actor t = some n := hn
    unfold updateNotice at hn'
    cases ha : dto.assignedTo with
    | none =>
      rw [ha] at hn'
      cases hn'
    | some a =>
      rw [ha] at hn'
      simp only [] at hn'
      split at hn'
      · cases hn'
        rfl
      · cases hn'

/-- C2 amended witness: the transfer scenario notification indeed carries
ASSIGNED. -/
theorem update_notice_action_always_assigned_witness :
    update cexStore2 50 2 cexDto2 5 =
      .ok (updateOutcomeOf cexStore2 50 2 cexDto2 5 cexTicket2) ∧
    (updateOutcomeOf cexStore2 50 2 cexDto2 5 cexTicket2).notice =
      some { technicianId := 7
             ticketCode := cexTicket2.ticketCode
             action := AssignmentAction.ASSIGNED } ∧
    AssignmentNotice.action
      { technicianId := 7
        ticketCode := cexTicket2.ticketCode
        action := AssignmentAction.ASSIGNED } = AssignmentAction.ASSIGNED :=
  ⟨rfl, rfl,
   update_notice_action_always_assigned cexStore2 50 2 cexDto2 5 _ _ rfl rfl⟩

/-- Helper: when no link row of the user is verified with a truthy LINE
user id, getVerifiedLineLink resolves to none. -/
theorem getVerifiedLineLink_eq_none (links : List LineOALink) (uid : Nat)
    (h : ∀ l ∈ links, l.userId = uid →
      ¬(l.status = LinkStatus.VERIFIED ∧ isTruthyStr l.lineUserId = true)) :
    getVerifiedLineLink links uid = none := by
  unfold getVerifiedLineLink
  cases hfind : links.find? (fun l => l.userId == uid) with
  | none => rfl
  | some l =>
    have hmem : l ∈ links := List.mem_of_find?_eq_some hfind
    have huid : l.userId = uid := by simpa using List.find?_some hfind
    have hnl := h l hmem huid
    simp only []
    rw [if_neg]
    intro hb
    simp only [Bool.and_eq_true, decide_eq_true_eq] at hb
    exact hnl ⟨hb.1, hb.2⟩

/-- C6: sendNotification for a user with no verified link returns success
false with the not-linked reason, issues no external call, and writes no
log row at all (in particular none with status SENT). -/
theorem sendNotification_not_linked (links : List LineOALink)
    (o : Except String Unit) (uid : Nat) (p : LineNotificationPayload)
    (h : ∀ l ∈ links, l.userId = uid →
      ¬(l.status = LinkStatus.VERIFIED ∧ isTruthyStr l.lineUserId = true)) :
    (sendNotification links o uid p).result.success = false ∧
    (sendNotification links o uid p).result.reason = some "User not linked to LINE" ∧
    (sendNotification links o uid p).calls = [] ∧
    (sendNotification links o uid p).newLogs.filter
      (fun d => decide (d.status = LineNotificationStatus.SENT)) = [] := by
  have hnone := getVerifiedLineLink_eq_none links uid h
  unfold sendNotification
  rw [hnone]
  exact ⟨rfl, rfl, rfl, rfl⟩

/-- C6 witness: user 5 has only an unverified link, so the send
short-circuits. -/
theorem sendNotification_not_linked_witness :
    (∀ l ∈ exLinks6, l.userId = 5 →
      ¬(l.status = LinkStatus.VERIFIED ∧ isTruthyStr l.lineUserId = true)) ∧
    ((sendNotification exLinks6 (.ok ()) 5 exPayload6).result.success = false ∧
     (sendNotification exLinks6 (.ok ()) 5 exPayload6).result.reason =
       some "User not linked to LINE" ∧
     (sendNotification exLinks6 (.ok ()) 5 exPayload6).calls = [] ∧
     (sendNotification exLinks6 (.ok ()) 5 exPayload6).newLogs.filter
       (fun d => decide (d.status = LineNotificationStatus.SENT)) = []) :=
  ⟨by decide, sendNotification_not_linked exLinks6 (.ok ()) 5 exPayload6 (by decide)⟩

/-- C7: when no user holds role IT together with a VERIFIED link, the IT
broadcast returns success false with the no-recipients reason string and
issues zero external calls (and writes no log row). -/
theorem notifyITTeam_no_recipients (users : List User)
    (links : List LineOALink) (o : Except String Unit)
    (p : RepairTicketNotificationPayload)
    (h : ∀ u ∈ users, ¬(u.role = Role.IT ∧
      (findLink links u.id).any (fun l => decide (l.status = LinkStatus.VERIFIED)) = true)) :
    (notifyRepairTicketToITTeam users links o p).result.success = false ∧
    (notifyRepairTicketToITTeam users links o p).result.reason =
      some "No IT users linked to LINE" ∧
    (notifyRepairTicketToITTeam users links o p).calls = [] ∧
    (notifyRepairTicketToITTeam users links o p).newLogs = [] := by
  have hfilter : users.filter (fun u =>
      decide (u.role = Role.IT) &&
      ((findLink links u.id).any (fun l => decide (l.status = LinkStatus.VERIFIED)))) = [] := by
    rw [List.filter_eq_nil_iff]
    intro u hu hb
    simp only [Bool.and_eq_true, decide_eq_true_eq] at hb
    exact h u hu ⟨hb.1, hb.2⟩
  have hids : itEligibleLineUserIds users links = [] := by
    unfold itEligibleLineUserIds
    rw [hfilter]
    rfl
  unfold notifyRepairTicketToITTeam
  rw [hids]
  exact ⟨rfl, rfl, rfl, rfl⟩

/-- C7 witness: an IT user without a verified link and a verified non-IT
user leave the recipient set empty. -/
theorem notifyITTeam_no_recipients_witness :
    (∀ u ∈ exUsers7, ¬(u.role = Role.IT ∧
      (findLink exLinks7 u.id).any (fun l => decide (l.status = LinkStatus.VERIFIED)) = true)) ∧
    ((notifyRepairTicketToITTeam exUsers7 exLinks7 (.ok ()) exPayload7).result.success = false ∧
     (notifyRepairTicketToITTeam exUsers7 exLinks7 (.ok ()) exPayload7).result.reason =
       some "No IT users linked to LINE" ∧
     (notifyRepairTicketToITTeam exUsers7 exLinks7 (.ok ()) exPayload7).calls = [] ∧
     (notifyRepairTicketToITTeam exUsers7 exLinks7 (.ok ()) exPayload7).newLogs = []) :=
  ⟨by decide, notifyITTeam_no_recipients exUsers7 exLinks7 (.ok ()) exPayload7 (by decide)⟩

/-- Helper: a row passing the findAll where-clause of a non-admin caller
with a truthy user id belongs to that caller. -/
theorem findAllWhere_userId (p : FindAllParams) (t : RepairTicket)
    (uid : Nat) (hw : findAllWhere p t = true)
    (hu : p.userId = some uid) (hA : p.isAdmin = false) (h0 : uid ≠ 0) :
    t.userId = uid := by
  unfold findAllWhere at hw
  rw [hu, hA] at hw
  simp only [Bool.and_eq_true] at hw
  have h1 := hw.1.1.1
  simp only [] at h1
  simp [h0] at h1
  exact h1

/-- C9: a findAll call through the controller on behalf of a caller who is
neither ADMIN nor IT (and whose id is truthy) returns only tickets owned
by that caller. -/
theorem controllerFindAll_non_admin_owner_scope (tickets : List RepairTicket)
    (caller : AuthUser) (status : Option RepairTicketStatus)
    (urgency : Option UrgencyLevel) (assignedTo limit : Option Nat)
    (hA : caller.role ≠ Role.ADMIN) (hI : caller.role ≠ Role.IT)
    (h0 : caller.id ≠ 0) :
    ∀ t ∈ controllerFindAll tickets caller status urgency assignedTo limit,
      t.userId = caller.id := by
  intro t ht
  simp only [controllerFindAll, findAllService] at ht
  have hmem : t ∈ tickets.filter (findAllWhere
      { userId := some caller.id
        isAdmin := decide (caller.role = Role.ADMIN) || decide (caller.role = Role.IT)
        status := status
        urgency := urgency
        assignedTo := assignedTo
        limit := limit }) := by
    cases limit with
    | none => exact List.mem_mergeSort.mp ht
    | some k => exact List.mem_mergeSort.mp (List.mem_of_mem_take ht)
  have hw := List.of_mem_filter hmem
  exact findAllWhere_userId _ t caller.id hw rfl (by simp [hA, hI]) h0

/-- C9 witness: the fixture store holds tickets of owners 11 and 22; the
plain-role caller 11 only ever receives their own tickets. -/
theorem controllerFindAll_non_admin_owner_scope_witness :
    exCaller9.role ≠ Role.ADMIN ∧ exCaller9.role ≠ Role.IT ∧ exCaller9.id ≠ 0 ∧
    ∀ t ∈ controllerFindAll exTickets9 exCaller9 none none none none,
      t.userId = exCaller9.id :=
  ⟨by decide, by decide, by decide,
   controllerFindAll_non_admin_owner_scope exTickets9 exCaller9 none none none none
     (by decide) (by decide) (by decide)⟩

/-- Helper: retry candidates are rows of the table. -/
theorem retryCandidates_subset (db : List LineNotification) :
    ∀ n ∈ retryCandidates db, n ∈ db := by
  intro n hn
  have h1 := List.mem_of_mem_take hn
  have h2 := List.mem_mergeSort.mp h1
  exact List.mem_of_mem_filter h2

/-- Helper: retry candidates satisfy the selection predicate of the
findMany where-clause. -/
theorem retryCandidates_pred (db : List LineNotification) :
    ∀ n ∈ retryCandidates db,
      n.status = LineNotificationStatus.FAILED ∧ n.retryCount < 3 := by
  intro n hn
  have h1 := List.mem_of_mem_take hn
  have h2 := List.mem_mergeSort.mp h1
  have h3 := List.of_mem_filter h2
  simp only [Bool.and_eq_true, decide_eq_true_eq] at h3
  exact h3

/-- C5: one retry pass selects only FAILED rows with retryCount below
three, at most ten of them, oldest first; each selected row is re-sent and
updated as specified (SENT with incremented retryCount on success,
incremented retryCount and overwritten error text on repeated failure);
rows at the retry cap are never selected and survive unchanged. -/
theorem retryFailedNotifications_meets_spec (db : List LineNotification)
    (sendOk : Nat → Bool) (errText : Nat → String)
    (hnd : (db.map LineNotification.id).Nodup) :
    RetryPassSpec db sendOk errText := by
  refine ⟨retryCandidates_pred db, List.length_take_le 10 _, ?_, ?_, ?_⟩
  · have htrans : ∀ a b c : LineNotification,
        decide (a.createdAt ≤ b.createdAt) → decide (b.createdAt ≤ c.createdAt) →
        decide (a.createdAt ≤ c.createdAt) := by
      intro a b c hab hbc
      simp only [decide_eq_true_eq] at *
      exact le_trans hab hbc
    have htotal : ∀ a b : LineNotification,
        decide (a.createdAt ≤ b.createdAt) || decide (b.createdAt ≤ a.createdAt) := by
      intro a b
      simp only [Bool.or_eq_true, decide_eq_true_eq]
      exact Nat.le_total a.createdAt b.createdAt
    have hs := List.sorted_mergeSort htrans htotal
      (db.filter (fun n =>
        decide (n.status = LineNotificationStatus.FAILED) && decide (n.retryCount < 3)))
    have hp := hs.sublist (List.take_sublist 10 _)
    exact hp.imp (fun h => of_decide_eq_true h)
  · intro n hn
    refine ⟨?_, ?_, ?_⟩
    · have hdb := retryCandidates_subset db n hn
      have hidmem : n.id ∈ (retryCandidates db).map LineNotification.id :=
        List.mem_map_of_mem _ hn
      have hmap := List.mem_map_of_mem
        (fun m => if m.id ∈ (retryCandidates db).map LineNotification.id
          then retryOne sendOk errText m else m) hdb
      simpa [retryFailedNotifications, hidmem] using hmap
    · intro hok
      simp [retryOne, hok]
    · intro hko
      simp [retryOne, hko]
  · intro n hdb h3
    have hnotin : n.id ∉ (retryCandidates db).map LineNotification.id := by
      intro hid
      obtain ⟨m, hm, hmid⟩ := List.mem_map.mp hid
      have hmdb := retryCandidates_subset db m hm
      have heq : m = n := List.inj_on_of_nodup_map hnd hmdb hdb hmid
      have hlt := (retryCandidates_pred db m hm).2
      rw [heq] at hlt
      omega
    constructor
    · intro hn
      have hlt := (retryCandidates_pred db n hn).2
      omega
    · have hmap := List.mem_map_of_mem
        (fun m => if m.id ∈ (retryCandidates db).map LineNotification.id
          then retryOne sendOk errText m else m) hdb
      simpa [retryFailedNotifications, hnotin] using hmap

/-- C5 witness: four FAILED rows with retry counts zero to three; the pass
retries the first three and leaves the capped fourth untouched. -/
theorem retryFailedNotifications_meets_spec_witness :
    (exRetryDb.map LineNotification.id).Nodup ∧
    RetryPassSpec exRetryDb (fun _ => true) (fun _ => "err") :=
  ⟨by decide,
   retryFailedNotifications_meets_spec exRetryDb (fun _ => true) (fun _ => "err")
     (by decide)⟩

end TRR
